import Mathlib

/-!
# Verification of the crystal-packing plot renderer and primality CLI

Shallow embedding of `plot_output.py` and `pypacking/cli.py`.

Conventions of the embedding:
* Python strings are Lean `String`s; character-level operations are done on
  `List Char` so that the Python semantics (`str.strip`, `str.split(",")`,
  `re.sub` character-class removal, `str.startswith`, slicing) are transcribed
  exactly.
* Python floats are modelled as rationals `ℚ`.  Every numeric literal the
  claims touch (small integers, halving) is exactly representable in binary
  floating point, so the rational model is faithful on them.  The decimal
  parser models the plain `[+-]?digits[.digits]` forms of Python `float()`;
  exponent, `inf`/`nan` and underscore forms are not modelled.
* The matplotlib drawing surface is modelled as a trace of effects, in the
  order the Python code issues the calls.
* Exceptions are modelled with `Except`.
-/

namespace CrystalPacking

/-- Python whitespace for `str.strip()` (ASCII range): space, tab, newline,
carriage return, vertical tab, form feed. -/
def isPySpace (c : Char) : Bool :=
  c == ' ' || c == '\t' || c == '\n' || c == '\r' ||
  c == Char.ofNat 11 || c == Char.ofNat 12

/-- The characters removed by `re.sub(remove_chars, "", line)` in
`plot_output.py` line 10: the bracket characters. -/
def isBracketChar (c : Char) : Bool :=
  c == '{' || c == '}' || c == '[' || c == ']' || c == '(' || c == ')'

/-- `str.strip()` on the character list. -/
def pyStripList (cs : List Char) : List Char :=
  ((cs.dropWhile isPySpace).reverse.dropWhile isPySpace).reverse

/-- Python `str.strip()`. -/
def pyStrip (s : String) : String :=
  String.mk (pyStripList s.data)

/-- `re.sub(remove_chars, "", s)`: delete every bracket character. -/
def removeBracketsList (cs : List Char) : List Char :=
  cs.filter (fun c => !(isBracketChar c))

/-- Python `str.split(",")` on the character list: splitting the empty string
yields one empty field, and `n` commas yield `n + 1` fields. -/
def splitCommaList : List Char → List (List Char)
  | [] => [[]]
  | c :: cs =>
    if c == ',' then [] :: splitCommaList cs
    else
      match splitCommaList cs with
      | [] => [[c]]
      | s :: rest => (c :: s) :: rest

/-- The field extraction common to every branch of `main`
(`plot_output.py` lines 18-21 etc.):
`[element.strip() for element in re.sub(remove_chars, "", s).strip().split(",")]`. -/
def fields (s : String) : List String :=
  (splitCommaList (pyStripList (removeBracketsList s.data))).map
    (fun cs => String.mk (pyStripList cs))

/-- Numeric value of a digit list, most significant first. -/
def digitsVal (l : List Char) : Nat :=
  l.foldl (fun a c => a * 10 + (c.toNat - 48)) 0

/-- Unsigned decimal literal accepted by Python `float()`:
`digits`, `digits.digits`, `.digits` or `digits.`. -/
def parseDecimal (cs : List Char) : Option ℚ :=
  let ip := cs.takeWhile Char.isDigit
  match cs.dropWhile Char.isDigit with
  | [] => if ip.isEmpty then none else some ((digitsVal ip : ℚ))
  | '.' :: frac =>
    if frac.all Char.isDigit && !(ip.isEmpty && frac.isEmpty) then
      some ((digitsVal ip : ℚ) + (digitsVal frac : ℚ) / ((10 : ℚ) ^ frac.length))
    else none
  | _ => none

/-- Python `float(s)`: surrounding whitespace is allowed, then an optional
sign and a decimal literal.  Returns `none` where `float()` raises
`ValueError`. -/
def parseFloat (s : String) : Option ℚ :=
  match pyStripList s.data with
  | '+' :: r => parseDecimal r
  | '-' :: r => (parseDecimal r).map (fun q => -q)
  | r => parseDecimal r

/-- Python `s.startswith(p)`: the first `len(p)` characters of `s` equal `p`. -/
def pyStarts (s p : String) : Bool :=
  decide (s.data.take p.data.length = p.data)

/-- A `plt.Circle` patch as constructed in `plot_output.py`: centre, radius,
face colour, edge colour, line width and alpha. -/
structure Circle where
  centerX : ℚ
  centerY : ℚ
  radius : ℚ
  facecolor : String
  edgecolor : String
  linewidth : ℚ
  alpha : ℚ
deriving Repr, DecidableEq

/-- An `ax.plot([x0, x1], [y0, y1], c=colour)` line segment. -/
structure Segment where
  x0 : ℚ
  y0 : ℚ
  x1 : ℚ
  y1 : ℚ
  colour : String
deriving Repr, DecidableEq

/-- One drawing primitive issued for one input line. -/
inductive DrawOp where
  | addPatch (c : Circle)
  | plotSeg (s : Segment)
deriving Repr, DecidableEq

/-- The exceptions a line of `main`'s loop can raise: a tuple-unpacking
`ValueError` (wrong field count) or a `float()` conversion `ValueError`. -/
inductive ParseError where
  | unpackError
  | floatError
deriving Repr, DecidableEq

/-- The `Atom2` branch (`plot_output.py` lines 17-30), applied to `line[5:]`:
exactly four fields `x, y, r, colour`; radius is the literal `float(r)`;
face and edge colour both `colour`, linewidth 3, alpha 0.8. -/
def parseCircleAtom2 (rest : String) : Except ParseError DrawOp :=
  match fields rest with
  | [x, y, r, colour] =>
    match parseFloat x, parseFloat y, parseFloat r with
    | some fx, some fy, some fr =>
      Except.ok (DrawOp.addPatch ⟨fx, fy, fr, colour, colour, 3, 4/5⟩)
    | _, _, _ => Except.error ParseError.floatError
  | _ => Except.error ParseError.unpackError

/-- The `LJ2` branch (`plot_output.py` lines 31-44), applied to `line[3:]`:
exactly five fields `x, y, r, _, colour`; the fourth is discarded; the radius
is `float(r) / 2`. -/
def parseCircleLJ2 (rest : String) : Except ParseError DrawOp :=
  match fields rest with
  | [x, y, r, _, colour] =>
    match parseFloat x, parseFloat y, parseFloat r with
    | some fx, some fy, some fr =>
      Except.ok (DrawOp.addPatch ⟨fx, fy, fr / 2, colour, colour, 3, 4/5⟩)
    | _, _, _ => Except.error ParseError.floatError
  | _ => Except.error ParseError.unpackError

/-- The segment parse shared verbatim by the `Line2` branch
(`plot_output.py` lines 45-50) and the untagged fallback (lines 51-56):
exactly five fields `x0, y0, x1, y1, colour`. -/
def parseSeg (rest : String) : Except ParseError DrawOp :=
  match fields rest with
  | [x0, y0, x1, y1, colour] =>
    match parseFloat x0, parseFloat y0, parseFloat x1, parseFloat y1 with
    | some a, some b, some c, some d =>
      Except.ok (DrawOp.plotSeg ⟨a, b, c, d, colour⟩)
    | _, _, _, _ => Except.error ParseError.floatError
  | _ => Except.error ParseError.unpackError

/-- The `if`/`elif` dispatch of `main`'s loop body (`plot_output.py`
lines 17-56): `Atom2` strips 5 characters, `LJ2` strips 3, `Line2` strips 5,
anything else is parsed whole as a segment. -/
def parseLine (line : String) : Except ParseError DrawOp :=
  if pyStarts line "Atom2" then parseCircleAtom2 (line.drop 5)
  else if pyStarts line "LJ2" then parseCircleLJ2 (line.drop 3)
  else if pyStarts line "Line2" then parseSeg (line.drop 5)
  else parseSeg line

/-- The file loop of `main`: parse each line in order, aborting at the first
exception exactly as the Python loop does. -/
def parseAll : List String → Except ParseError (List DrawOp)
  | [] => Except.ok []
  | l :: ls =>
    match parseLine l with
    | Except.error e => Except.error e
    | Except.ok op =>
      match parseAll ls with
      | Except.error e => Except.error e
      | Except.ok ops => Except.ok (op :: ops)

/-- One call the renderer makes on the drawing surface, in program order. -/
inductive Effect where
  | draw (op : DrawOp)
  | setAspect (a : ℚ)
  | plotPoint (x y : ℚ)
  | figShow
  | savefig (path : String)
deriving Repr, DecidableEq

/-- `pathlib.Path.with_suffix(".pdf")`: in the final path component, the part
from the last dot on (a lone leading dot does not count as a suffix) is
replaced by `.pdf`; a name with no suffix gets `.pdf` appended. -/
def withSuffixPdf (filename : String) : String :=
  let cs := filename.data
  let name := (cs.reverse.takeWhile (fun c => c != '/')).reverse
  let dir := cs.take (cs.length - name.length)
  let stem :=
    if (name.drop 1).contains '.' then
      ((name.reverse.dropWhile (fun c => c != '.')).drop 1).reverse
    else name
  String.mk (dir ++ stem ++ ".pdf".data)

/-- `main(filename)` of `plot_output.py` (lines 13-63) as a trace of surface
calls: one draw per successfully parsed line in file order, then
`ax.set_aspect(1)`, `ax.plot(0, 0)`, `fig.show()` and
`plt.savefig(filename.with_suffix(".pdf"))`; a malformed line raises and no
later call happens. -/
def mainEffects (filename : String) (lines : List String) :
    Except ParseError (List Effect) :=
  match parseAll lines with
  | Except.error e => Except.error e
  | Except.ok ops =>
    Except.ok (ops.map Effect.draw ++
      [Effect.setAspect 1, Effect.plotPoint 0 0, Effect.figShow,
       Effect.savefig (withSuffixPdf filename)])

/-- `Bool` test that an `Except` is a success. -/
def exceptIsOk {ε α : Type} : Except ε α → Bool
  | Except.ok _ => true
  | Except.error _ => false

/-- The existence-check error of `plot_output.py` line 76:
`ValueError(f"File ... does not exist")`. -/
inductive CheckError where
  | fileNotExist (filename : String)
deriving Repr, DecidableEq

/-- `plot_output.py` lines 75-78: the filesystem `fs` maps a path to the list
of lines of the file it names, or `none` when no such file exists.  If
`filename` does not exist a `ValueError` is raised; only otherwise is the
continuation `run` (in the script, `main`) invoked on the file's lines.  The
continuation is a parameter so that theorems can quantify over it. -/
def checkAndRun {α : Type} (run : String → List String → α)
    (fs : String → Option (List String)) (filename : String) :
    Except CheckError α :=
  match fs filename with
  | none => Except.error (CheckError.fileNotExist filename)
  | some lines => Except.ok (run filename lines)

/-- Outcome of running the `if __name__ == "__main__"` block. -/
inductive EntryOutcome where
  | nameErrorArgv
  | fileNotExist (filename : String)
  | ran (filename : String) (result : Except ParseError (List Effect))
deriving Repr

/-- The `__main__` block of `plot_output.py` (lines 66-78).  `args` is
`sys.argv` (script name first).  When `len(sys.argv) == 2` the script executes
`filename = Path(argv[1])`, but the name `argv` is unbound (only `sys` is
imported), so a `NameError` is raised — which the surrounding
`except ValueError` does not catch.  Otherwise `filename = Path("test.txt")`,
the existence check runs, and `main` is called. -/
def entry (args : List String) (fs : String → Option (List String)) :
    EntryOutcome :=
  if args.length = 2 then EntryOutcome.nameErrorArgv
  else
    match checkAndRun mainEffects fs "test.txt" with
    | Except.error (CheckError.fileNotExist f) => EntryOutcome.fileNotExist f
    | Except.ok r => EntryOutcome.ran "test.txt" r

/-! ## The primality CLI (`pypacking/cli.py`) -/

/-- What a run of the `pypacking` console script prints: either a line echoed
by the command body (`click.echo`), or a usage error produced by click's
argument-type conversion (`Error: Invalid value for NUMBER: ... is not a
valid integer`, exit code 2), which happens before the command body runs. -/
inductive CliOutput where
  | echoed (s : String)
  | usageError (badArg : String)
deriving Repr, DecidableEq

/-- The usage hint echoed by the `else` branch of `cli.py` lines 22-24. -/
def usageHint : String :=
  "Please supply an integer argument greater than 2. The " ++
  "console script will tell you if it is a prime number"

/-- Python `int(s)` as invoked by click's `INT` parameter type: surrounding
whitespace allowed, optional sign, then a nonempty digit string.  Returns
`none` where `int()` raises `ValueError` (underscore digit separators are not
modelled). -/
def pyParseInt (s : String) : Option Int :=
  let core : List Char → Option Int := fun cs =>
    if cs.isEmpty then none
    else if cs.all Char.isDigit then some ((digitsVal cs : Int)) else none
  match pyStripList s.data with
  | '+' :: r => core r
  | '-' :: r => (core r).map (fun n => -n)
  | r => core r

/-- `main` of `cli.py` (lines 9-24) together with click's processing of the
declared `NUMBER` argument (`nargs=1, type=int, required=False`): an absent
argument passes `number=None`; a present argument is converted with `int()`,
and a conversion failure is a click usage error that prevents the command
body from running.  In the body, `if number and number > 2` computes
`rust_lib.is_prime(number)` (the external library, taken as a parameter) and
echoes `True` or `False`; otherwise the usage hint is echoed. -/
def cliMain (isPrime : Int → Bool) (arg : Option String) : CliOutput :=
  match arg with
  | none => CliOutput.echoed usageHint
  | some s =>
    match pyParseInt s with
    | none => CliOutput.usageError s
    | some n =>
      if n ≠ 0 ∧ n > 2 then
        CliOutput.echoed (if isPrime n then "True" else "False")
      else CliOutput.echoed usageHint

/-! ## Helper lemmas -/

theorem pyStarts_take {s p : String} (h : pyStarts s p = true)
    {k : Nat} (hk : k ≤ p.data.length) :
    s.data.take k = p.data.take k := by
  simp only [pyStarts, decide_eq_true_eq] at h
  rw [← h, List.take_take, Nat.min_eq_left hk]

theorem starts_lj2_not_atom2 {s : String} (h : pyStarts s "LJ2" = true) :
    pyStarts s "Atom2" = false := by
  cases ha : pyStarts s "Atom2" with
  | false => rfl
  | true =>
    have h1 := pyStarts_take h (k := 3) (by decide)
    have h2 := pyStarts_take ha (k := 3) (by decide)
    rw [h1] at h2
    exact absurd h2 (by decide)

theorem starts_line2_not_atom2 {s : String} (h : pyStarts s "Line2" = true) :
    pyStarts s "Atom2" = false := by
  cases ha : pyStarts s "Atom2" with
  | false => rfl
  | true =>
    have h1 := pyStarts_take h (k := 1) (by decide)
    have h2 := pyStarts_take ha (k := 1) (by decide)
    rw [h1] at h2
    exact absurd h2 (by decide)

theorem starts_line2_not_lj2 {s : String} (h : pyStarts s "Line2" = true) :
    pyStarts s "LJ2" = false := by
  cases ha : pyStarts s "LJ2" with
  | false => rfl
  | true =>
    have h1 := pyStarts_take h (k := 2) (by decide)
    have h2 := pyStarts_take ha (k := 2) (by decide)
    rw [h1] at h2
    exact absurd h2 (by decide)

theorem not_starts_of_all_space {s p : String}
    (hs : s.data.all isPySpace = true) {c : Char} (hc : c ∈ p.data)
    (hcs : isPySpace c = false) : pyStarts s p = false := by
  cases ha : pyStarts s p with
  | false => rfl
  | true =>
    simp only [pyStarts, decide_eq_true_eq] at ha
    have hmem : c ∈ s.data := List.take_subset _ _ (ha ▸ hc)
    rw [List.all_eq_true] at hs
    rw [hs c hmem] at hcs
    exact absurd hcs (by decide)

theorem parseCircleAtom2_ok {rest : String} {op : DrawOp}
    (h : parseCircleAtom2 rest = Except.ok op) :
    ∃ x y r colour fx fy fr,
      fields rest = [x, y, r, colour] ∧
      parseFloat x = some fx ∧ parseFloat y = some fy ∧
      parseFloat r = some fr ∧
      op = DrawOp.addPatch ⟨fx, fy, fr, colour, colour, 3, 4/5⟩ := by
  unfold parseCircleAtom2 at h
  split at h
  case _ x y r colour hf =>
    split at h
    case _ fx fy fr hx hy hr =>
      exact ⟨x, y, r, colour, fx, fy, fr, hf, hx, hy, hr, (Except.ok.inj h).symm⟩
    case _ => exact absurd h (by simp)
  case _ => exact absurd h (by simp)

theorem parseCircleLJ2_ok {rest : String} {op : DrawOp}
    (h : parseCircleLJ2 rest = Except.ok op) :
    ∃ x y r ig colour fx fy fr,
      fields rest = [x, y, r, ig, colour] ∧
      parseFloat x = some fx ∧ parseFloat y = some fy ∧
      parseFloat r = some fr ∧
      op = DrawOp.addPatch ⟨fx, fy, fr / 2, colour, colour, 3, 4/5⟩ := by
  unfold parseCircleLJ2 at h
  split at h
  case _ x y r ig colour hf =>
    split at h
    case _ fx fy fr hx hy hr =>
      exact ⟨x, y, r, ig, colour, fx, fy, fr, hf, hx, hy, hr, (Except.ok.inj h).symm⟩
    case _ => exact absurd h (by simp)
  case _ => exact absurd h (by simp)

theorem parseCircleLJ2_ne5 {rest : String}
    (h : (fields rest).length ≠ 5) :
    parseCircleLJ2 rest = Except.error ParseError.unpackError := by
  rcases hf : fields rest with
    _ | ⟨x, _ | ⟨y, _ | ⟨r, _ | ⟨ig, _ | ⟨colour, rest2⟩⟩⟩⟩⟩ <;>
    simp only [parseCircleLJ2, hf]
  · cases rest2 with
    | nil => rw [hf] at h; simp at h
    | cons a t => simp

theorem parseSeg_ne5 {rest : String}
    (h : (fields rest).length ≠ 5) :
    parseSeg rest = Except.error ParseError.unpackError := by
  rcases hf : fields rest with
    _ | ⟨x, _ | ⟨y, _ | ⟨r, _ | ⟨ig, _ | ⟨colour, rest2⟩⟩⟩⟩⟩ <;>
    simp only [parseSeg, hf]
  · cases rest2 with
    | nil => rw [hf] at h; simp at h
    | cons a t => simp

theorem parseAll_append_error {lines1 : List String} {line : String}
    (lines2 : List String) {e : ParseError}
    (hok : exceptIsOk (parseAll lines1) = true)
    (he : parseLine line = Except.error e) :
    parseAll (lines1 ++ line :: lines2) = Except.error e := by
  induction lines1 with
  | nil => simp [parseAll, he]
  | cons l ls ih =>
    simp only [exceptIsOk, parseAll] at hok
    rcases hl : parseLine l with e' | op <;> rw [hl] at hok
    · simp at hok
    · rcases hls : parseAll ls with e' | ops <;> rw [hls] at hok
      · simp at hok
      · have h2 := ih (by rw [hls]; rfl)
        rw [List.cons_append]
        simp [parseAll, hl, h2]

theorem parseAll_ok_len {lines : List String} {ops : List DrawOp}
    (h : parseAll lines = Except.ok ops) : ops.length = lines.length := by
  induction lines generalizing ops with
  | nil => simp only [parseAll, Except.ok.injEq] at h; simp [← h]
  | cons l ls ih =>
    simp only [parseAll] at h
    rcases hl : parseLine l with e | op <;> rw [hl] at h
    · simp at h
    · rcases hls : parseAll ls with e | ops' <;> rw [hls] at h
      · simp at h
      · simp only [Except.ok.injEq] at h
        rw [← h]
        simp [ih hls]

theorem parseAll_ok_get {lines : List String} {ops : List DrawOp}
    (h : parseAll lines = Except.ok ops) :
    ∀ i, i < lines.length →
      ∃ l op, lines[i]? = some l ∧ ops[i]? = some op ∧
        parseLine l = Except.ok op := by
  induction lines generalizing ops with
  | nil => intro i hi; simp at hi
  | cons l ls ih =>
    simp only [parseAll] at h
    rcases hl : parseLine l with e | op <;> rw [hl] at h
    · simp at h
    · rcases hls : parseAll ls with e | ops' <;> rw [hls] at h
      · simp at h
      · simp only [Except.ok.injEq] at h
        subst h
        intro i hi
        cases i with
        | zero => exact ⟨l, op, by simp, by simp, hl⟩
        | succ j =>
          simp only [List.length_cons, Nat.succ_lt_succ_iff] at hi
          obtain ⟨l', op', h1, h2, h3⟩ := ih hls j hi
          exact ⟨l', op', by simpa using h1, by simpa using h2, h3⟩

theorem space_not_bracket {c : Char} (h : isPySpace c = true) :
    isBracketChar c = false := by
  simp only [isPySpace, Bool.or_eq_true, beq_iff_eq] at h
  rcases h with ((((rfl | rfl) | rfl) | rfl) | rfl) | rfl <;> rfl

theorem fields_all_space {line : String}
    (h : line.data.all isPySpace = true) : fields line = [""] := by
  have hrb : removeBracketsList line.data = line.data := by
    apply List.filter_eq_self.mpr
    intro c hc
    have hs := List.all_eq_true.mp h c hc
    simp [space_not_bracket hs]
  have hstrip : pyStripList line.data = [] := by
    unfold pyStripList
    have hd : line.data.dropWhile isPySpace = [] :=
      List.dropWhile_eq_nil_iff.mpr (fun c hc => List.all_eq_true.mp h c hc)
    rw [hd]
    rfl
  show (splitCommaList (pyStripList (removeBracketsList line.data))).map
      (fun cs => String.mk (pyStripList cs)) = [""]
  rw [hrb, hstrip]
  rfl

/-- Shared abort lemma: an untagged line whose field count is not five raises
the unpacking `ValueError`, and a file reaching that line (every earlier line
parses) produces no output at all. -/
theorem fallback_aborts {line : String}
    (h1 : pyStarts line "Atom2" = false) (h2 : pyStarts line "LJ2" = false)
    (h3 : pyStarts line "Line2" = false)
    (hc : (fields line).length ≠ 5)
    (filename : String) {lines1 : List String} (lines2 : List String)
    (hok : exceptIsOk (parseAll lines1) = true) :
    parseLine line = Except.error ParseError.unpackError ∧
    mainEffects filename (lines1 ++ line :: lines2) =
      Except.error ParseError.unpackError := by
  have hp : parseLine line = Except.error ParseError.unpackError := by
    simp only [parseLine, h1, h2, h3, Bool.false_eq_true, if_false]
    exact parseSeg_ne5 hc
  refine ⟨hp, ?_⟩
  have ha := parseAll_append_error lines2 hok hp
  simp [mainEffects, ha]

/-! ## Claim theorems -/

/-- C1 (counterexample): in `plot_output.py` the tags are `Atom2` and
`Line2`, so the input lines `Atom 0,0,1,red` and `Line 0,0,1,1,blue` both
fall into the untagged fallback; the first splits into four comma-separated
fields, not five, and `main` raises a `ValueError` instead of producing an
output file. -/
theorem c1_counterexample :
    mainEffects "test.txt" ["Atom 0,0,1,red\n", "Line 0,0,1,1,blue\n"] =
      Except.error ParseError.unpackError := by rfl

/-- C1 (amended): for an input file consisting of the line `Atom2 0,0,1,red`
followed by the line `Line2 0,0,1,1,blue` — the tag vocabulary this script
actually recognises — `main` does not raise, and it saves the figure to the
input path with its extension replaced by `.pdf`. -/
theorem c1_amended_round_trip :
    mainEffects "test.txt" ["Atom2 0,0,1,red\n", "Line2 0,0,1,1,blue\n"] =
      Except.ok
        [Effect.draw (DrawOp.addPatch ⟨0, 0, 1, "red", "red", 3, 4/5⟩),
         Effect.draw (DrawOp.plotSeg ⟨0, 0, 1, 1, "blue"⟩),
         Effect.setAspect 1, Effect.plotPoint 0 0, Effect.figShow,
         Effect.savefig "test.pdf"] := by rfl

/-- C2: every line beginning with `LJ2` is parsed by stripping the
3-character tag, removing brackets, splitting into exactly five
comma-separated fields `x, y, r, _, colour` (any other count raises the
unpacking error), discarding the fourth field, and adding a circle of radius
`float(r) / 2` at `(x, y)`; for `LJ2 0,0,4,ignored,green` the radius is 2. -/
theorem c2_lj2_parse (line : String) (h : pyStarts line "LJ2" = true) :
    (∀ op, parseLine line = Except.ok op →
      ∃ x y r ig colour fx fy fr,
        fields (line.drop 3) = [x, y, r, ig, colour] ∧
        parseFloat x = some fx ∧ parseFloat y = some fy ∧
        parseFloat r = some fr ∧
        op = DrawOp.addPatch ⟨fx, fy, fr / 2, colour, colour, 3, 4/5⟩) ∧
    ((fields (line.drop 3)).length ≠ 5 →
      parseLine line = Except.error ParseError.unpackError) ∧
    parseLine "LJ2 0,0,4,ignored,green" =
      Except.ok (DrawOp.addPatch ⟨0, 0, 2, "green", "green", 3, 4/5⟩) := by
  have hA := starts_lj2_not_atom2 h
  have hd : parseLine line = parseCircleLJ2 (line.drop 3) := by
    simp [parseLine, hA, h]
  refine ⟨?_, ?_, ?_⟩
  · intro op hop
    rw [hd] at hop
    exact parseCircleLJ2_ok hop
  · intro hlen
    rw [hd]
    exact parseCircleLJ2_ne5 hlen
  · have hst : pyStarts "LJ2 0,0,4,ignored,green" "Atom2" = false := by decide
    have hst2 : pyStarts "LJ2 0,0,4,ignored,green" "LJ2" = true := by decide
    have hf : fields (("LJ2 0,0,4,ignored,green" : String).drop 3) =
        ["0", "0", "4", "ignored", "green"] := by decide
    have h0 : parseFloat "0" = some 0 := by decide
    have h4 : parseFloat "4" = some 4 := by decide
    simp [parseLine, hst, hst2, parseCircleLJ2, hf, h0, h4]
    norm_num

/-- C2 witness: the theorem applied to the concrete line
`LJ2 0,0,4,ignored,green`, whose rendered circle radius is 2. -/
theorem c2_lj2_parse_witness :
    parseLine "LJ2 0,0,4,ignored,green" =
      Except.ok (DrawOp.addPatch ⟨0, 0, 2, "green", "green", 3, 4/5⟩) :=
  (c2_lj2_parse "LJ2 0,0,4,ignored,green" (by decide)).2.2

/-- C3: a line matching no recognised tag is parsed by the fallback branch,
which requires exactly five comma-separated fields after bracket removal; any
other field count raises the unpacking `ValueError`, and a file reaching such
a line aborts with no output (no partial-file recovery). -/
theorem c3_fallback_field_count (line : String)
    (h1 : pyStarts line "Atom2" = false) (h2 : pyStarts line "LJ2" = false)
    (h3 : pyStarts line "Line2" = false)
    (hc : (fields line).length ≠ 5)
    (filename : String) (lines1 lines2 : List String)
    (hok : exceptIsOk (parseAll lines1) = true) :
    parseLine line = Except.error ParseError.unpackError ∧
    mainEffects filename (lines1 ++ line :: lines2) =
      Except.error ParseError.unpackError :=
  fallback_aborts h1 h2 h3 hc filename lines2 hok

/-- C3 witness: the two-field line `foo,bar` aborts a file whose earlier line
parses fine. -/
theorem c3_fallback_field_count_witness :
    parseLine "foo,bar\n" = Except.error ParseError.unpackError ∧
    mainEffects "test.txt" (["0,0,1,1,red\n"] ++ "foo,bar\n" :: ["x"]) =
      Except.error ParseError.unpackError :=
  c3_fallback_field_count "foo,bar\n" (by decide) (by decide) (by decide)
    (by decide) "test.txt" ["0,0,1,1,red\n"] ["x"] (by decide)

/-- C4 (code evaluated at the failing input): the `__main__` block tests
`len(sys.argv) == 2` but then evaluates `Path(argv[1])` where `argv` is an
unbound name, so supplying exactly one command-line argument raises
`NameError` even when the named file exists — the argument never becomes the
input path.  With no argument the default `test.txt` path is used and `main`
runs on it. -/
theorem c4_argv_name_error :
    entry ["plot_output.py", "input.txt"] (fun _ => some []) =
      EntryOutcome.nameErrorArgv ∧
    entry ["plot_output.py"] (fun _ => some ["0,0,1,1,red\n"]) =
      EntryOutcome.ran "test.txt"
        (mainEffects "test.txt" ["0,0,1,1,red\n"]) :=
  ⟨rfl, rfl⟩

/-- C5 (counterexample): for the non-integer argument `abc`, click's `INT`
type conversion fails before the command body runs, so the output is the
framework's invalid-value usage error, not the usage-hint message echoed by
the `else` branch. -/
theorem c5_counterexample :
    cliMain (fun _ => true) (some "abc") = CliOutput.usageError "abc" ∧
    CliOutput.usageError "abc" ≠ CliOutput.echoed usageHint :=
  ⟨rfl, by decide⟩

/-- C5 (amended): an absent argument or an integer argument at most 2 prints
the usage-hint message with no computation; a non-integer argument is
rejected by the CLI framework's type conversion with an invalid-value usage
error, also with no computation; an integer argument greater than 2 (such as
13) prints the boolean result of the external primality check. -/
theorem c5_amended_validation (isPrime : Int → Bool) :
    cliMain isPrime none = CliOutput.echoed usageHint ∧
    (∀ s n, pyParseInt s = some n → n ≤ 2 →
      cliMain isPrime (some s) = CliOutput.echoed usageHint) ∧
    (∀ s, pyParseInt s = none →
      cliMain isPrime (some s) = CliOutput.usageError s) ∧
    (∀ s n, pyParseInt s = some n → n > 2 →
      cliMain isPrime (some s) =
        CliOutput.echoed (if isPrime n then "True" else "False")) ∧
    cliMain isPrime (some "13") =
      CliOutput.echoed (if isPrime 13 then "True" else "False") := by
  refine ⟨rfl, ?_, ?_, ?_, ?_⟩
  · intro s n hs hn
    have hno : ¬(n ≠ 0 ∧ n > 2) := by omega
    simp [cliMain, hs, hno]
  · intro s hs
    simp [cliMain, hs]
  · intro s n hs hn
    have hyes : n ≠ 0 ∧ n > 2 := by omega
    simp [cliMain, hs, hyes]
  · rfl

/-- C5 witness: the amended theorem applied at the boundary argument `2`,
which prints the usage hint. -/
theorem c5_amended_validation_witness :
    cliMain (fun _ => true) (some "2") = CliOutput.echoed usageHint :=
  (c5_amended_validation (fun _ => true)).2.1 "2" 2 rfl (by decide)

/-- C6: for every input path that names no existing file, the existence
check of the `__main__` block raises the file-does-not-exist `ValueError`,
whatever the continuation `run` (i.e. `main`) would do — so no line is read
and no parsing or drawing occurs. -/
theorem c6_missing_file {α : Type} (run : String → List String → α)
    (fs : String → Option (List String)) (filename : String)
    (h : fs filename = none) :
    checkAndRun run fs filename =
      Except.error (CheckError.fileNotExist filename) := by
  simp [checkAndRun, h]

/-- C6 witness: the theorem applied to an empty filesystem and the path
`missing.txt`. -/
theorem c6_missing_file_witness :
    checkAndRun (fun _ _ => (0 : Nat)) (fun _ => none) "missing.txt" =
      Except.error (CheckError.fileNotExist "missing.txt") :=
  c6_missing_file (fun _ _ => (0 : Nat)) (fun _ => none) "missing.txt" rfl

/-- C7: every line beginning with `Atom2` that parses successfully yields a
circle whose radius is the literal `float(r)` with no scaling, centred at
`(x, y)`, with face colour and edge colour both the colour field, alpha 0.8
and line width 3. -/
theorem c7_atom2_circle (line : String) (h : pyStarts line "Atom2" = true) :
    ∀ op, parseLine line = Except.ok op →
      ∃ x y r colour fx fy fr,
        fields (line.drop 5) = [x, y, r, colour] ∧
        parseFloat x = some fx ∧ parseFloat y = some fy ∧
        parseFloat r = some fr ∧
        op = DrawOp.addPatch ⟨fx, fy, fr, colour, colour, 3, 4/5⟩ := by
  intro op hop
  simp only [parseLine, h, if_true] at hop
  exact parseCircleAtom2_ok hop

/-- C7 witness: the theorem applied to `Atom2 1,2,3,red`, whose circle has
radius exactly 3. -/
theorem c7_atom2_circle_witness :
    ∃ x y r colour fx fy fr,
      fields (("Atom2 1,2,3,red" : String).drop 5) = [x, y, r, colour] ∧
      parseFloat x = some fx ∧ parseFloat y = some fy ∧
      parseFloat r = some fr ∧
      DrawOp.addPatch ⟨1, 2, 3, "red", "red", 3, 4/5⟩ =
        DrawOp.addPatch ⟨fx, fy, fr, colour, colour, 3, 4/5⟩ :=
  c7_atom2_circle "Atom2 1,2,3,red" (by decide)
    (DrawOp.addPatch ⟨1, 2, 3, "red", "red", 3, 4/5⟩) (by rfl)

/-- C8: an empty or whitespace-only line matches no tag, its fallback parse
splits the stripped empty string into a single field rather than five, so it
raises the unpacking `ValueError` and aborts the file — it is not silently
skipped. -/
theorem c8_blank_line_fails (line : String)
    (h : line.data.all isPySpace = true)
    (filename : String) (lines1 lines2 : List String)
    (hok : exceptIsOk (parseAll lines1) = true) :
    parseLine line = Except.error ParseError.unpackError ∧
    mainEffects filename (lines1 ++ line :: lines2) =
      Except.error ParseError.unpackError := by
  have h1 := not_starts_of_all_space (p := "Atom2") h (c := 'A')
    (by decide) (by decide)
  have h2 := not_starts_of_all_space (p := "LJ2") h (c := 'L')
    (by decide) (by decide)
  have h3 := not_starts_of_all_space (p := "Line2") h (c := 'L')
    (by decide) (by decide)
  have hc : (fields line).length ≠ 5 := by
    rw [fields_all_space h]
    decide
  exact fallback_aborts h1 h2 h3 hc filename lines2 hok

/-- C8 witness: a bare newline aborts a file whose earlier line parses. -/
theorem c8_blank_line_fails_witness :
    parseLine "\n" = Except.error ParseError.unpackError ∧
    mainEffects "test.txt" (["0,0,1,1,red\n"] ++ "\n" :: []) =
      Except.error ParseError.unpackError :=
  c8_blank_line_fails "\n" (by decide) "test.txt" ["0,0,1,1,red\n"] []
    (by decide)

/-- C9: when every line parses, the effect trace is the per-line draws
followed, in this order, by setting the aspect ratio to 1, plotting the
line-less point at the origin, showing the figure, and saving it to the
input path with its extension replaced by `.pdf`. -/
theorem c9_final_effects (filename : String) (lines : List String)
    (effs : List Effect) (h : mainEffects filename lines = Except.ok effs) :
    ∃ ops : List DrawOp,
      effs = ops.map Effect.draw ++
        [Effect.setAspect 1, Effect.plotPoint 0 0, Effect.figShow,
         Effect.savefig (withSuffixPdf filename)] := by
  unfold mainEffects at h
  rcases hp : parseAll lines with e | ops <;> rw [hp] at h
  · simp at h
  · exact ⟨ops, (Except.ok.inj h).symm⟩

/-- C9 witness: the theorem applied to a one-line file named `test.txt`,
whose figure is saved as `test.pdf`. -/
theorem c9_final_effects_witness :
    ∃ ops : List DrawOp,
      [Effect.draw (DrawOp.plotSeg ⟨0, 0, 1, 1, "red"⟩), Effect.setAspect 1,
       Effect.plotPoint 0 0, Effect.figShow, Effect.savefig "test.pdf"] =
        ops.map Effect.draw ++
          [Effect.setAspect 1, Effect.plotPoint 0 0, Effect.figShow,
           Effect.savefig (withSuffixPdf "test.txt")] :=
  c9_final_effects "test.txt" ["0,0,1,1,red\n"]
    [Effect.draw (DrawOp.plotSeg ⟨0, 0, 1, 1, "red"⟩), Effect.setAspect 1,
     Effect.plotPoint 0 0, Effect.figShow, Effect.savefig "test.pdf"]
    (by rfl)

/-- C10: when every line parses, the renderer issues exactly one draw per
input line, in file order — the i-th draw operation is the parse of the i-th
line — and the draws are followed only by the fixed closing effects, so no
primitive is duplicated, reordered, retained or mutated after its draw. -/
theorem c10_one_draw_per_line (filename : String) (lines : List String)
    (effs : List Effect) (h : mainEffects filename lines = Except.ok effs) :
    ∃ ops : List DrawOp,
      parseAll lines = Except.ok ops ∧
      effs = ops.map Effect.draw ++
        [Effect.setAspect 1, Effect.plotPoint 0 0, Effect.figShow,
         Effect.savefig (withSuffixPdf filename)] ∧
      ops.length = lines.length ∧
      (∀ i, i < lines.length →
        ∃ l op, lines[i]? = some l ∧ ops[i]? = some op ∧
          parseLine l = Except.ok op) := by
  unfold mainEffects at h
  rcases hp : parseAll lines with e | ops <;> rw [hp] at h
  · simp at h
  · exact ⟨ops, rfl, (Except.ok.inj h).symm, parseAll_ok_len hp,
      parseAll_ok_get hp⟩

/-- C10 witness: the theorem applied to a two-line file. -/
theorem c10_one_draw_per_line_witness :
    ∃ ops : List DrawOp,
      parseAll ["Atom2 0,0,1,red\n", "0,0,1,1,blue\n"] = Except.ok ops ∧
      [Effect.draw (DrawOp.addPatch ⟨0, 0, 1, "red", "red", 3, 4/5⟩),
       Effect.draw (DrawOp.plotSeg ⟨0, 0, 1, 1, "blue"⟩),
       Effect.setAspect 1, Effect.plotPoint 0 0, Effect.figShow,
       Effect.savefig "test.pdf"] =
        ops.map Effect.draw ++
          [Effect.setAspect 1, Effect.plotPoint 0 0, Effect.figShow,
           Effect.savefig (withSuffixPdf "test.txt")] ∧
      ops.length = (["Atom2 0,0,1,red\n", "0,0,1,1,blue\n"] :
        List String).length ∧
      (∀ i, i < (["Atom2 0,0,1,red\n", "0,0,1,1,blue\n"] :
          List String).length →
        ∃ l op,
          (["Atom2 0,0,1,red\n", "0,0,1,1,blue\n"] :
            List String)[i]? = some l ∧ ops[i]? = some op ∧
          parseLine l = Except.ok op) :=
  c10_one_draw_per_line "test.txt" ["Atom2 0,0,1,red\n", "0,0,1,1,blue\n"]
    [Effect.draw (DrawOp.addPatch ⟨0, 0, 1, "red", "red", 3, 4/5⟩),
     Effect.draw (DrawOp.plotSeg ⟨0, 0, 1, 1, "blue"⟩),
     Effect.setAspect 1, Effect.plotPoint 0 0, Effect.figShow,
     Effect.savefig "test.pdf"]
    (by rfl)

end CrystalPacking
